import Mathlib

/-!
Verification development for the network-resolution core of the
`ollama_agents` repository: the device directory cache, the router query
backends (`openwrt_query.py`, `modules/openwrt_web.py`) and the resolution
agent (`openai_network_agent.py`), shallowly embedded as pure Lean functions.
Effectful library calls (DNS, reverse DNS, ping, HTTP) are modelled as
explicit oracle parameters; mutation of the agent's cache state is modelled
by explicit state passing.
-/

namespace OllamaAgents

/-! ## Python string primitives used by the code under study -/

/-- Whitespace characters recognised by Python `str.strip()` / `str.split()`
(space, tab, newline, carriage return, vertical tab, form feed). -/
def isPySpace (c : Char) : Bool :=
  c = ' ' || c = '\t' || c = '\n' || c = '\r' || c = Char.ofNat 11 || c = Char.ofNat 12

/-- Python `str.strip()`: remove leading and trailing whitespace. -/
def pyStrip (s : String) : String :=
  ⟨((s.data.dropWhile isPySpace).reverse.dropWhile isPySpace).reverse⟩

/-- ASCII lowercasing of one character (Python `str.lower()` on the ASCII
range, which is the only range exercised by the code). -/
def asciiLower (c : Char) : Char :=
  if 'A' ≤ c && c ≤ 'Z' then Char.ofNat (c.toNat + 32) else c

/-- Python `str.lower()`. -/
def pyLower (s : String) : String := ⟨s.data.map asciiLower⟩

/-- Python `str.split(sep)` for a one-character separator. -/
def splitChar : List Char → Char → List (List Char)
  | [], _ => [[]]
  | c :: rest, sep =>
    let r := splitChar rest sep
    if c = sep then [] :: r
    else
      match r with
      | [] => [[c]]
      | h :: t => (c :: h) :: t

/-- Python `str.split(sep)` at the `String` level. -/
def pySplit (s : String) (sep : Char) : List String :=
  (splitChar s.data sep).map (fun l => ⟨l⟩)

/-- Helper for Python's no-argument `str.split()`: accumulate the current
word (reversed) and split on runs of whitespace, discarding empty words. -/
def wordsAux : List Char → List Char → List (List Char)
  | [], acc => if acc.isEmpty then [] else [acc.reverse]
  | c :: rest, acc =>
    if isPySpace c then
      if acc.isEmpty then wordsAux rest [] else acc.reverse :: wordsAux rest []
    else
      wordsAux rest (c :: acc)

/-- Python `str.split()` (no argument): split on whitespace runs. -/
def pyWords (s : String) : List String := (wordsAux s.data []).map (fun l => ⟨l⟩)

/-- Python `str.split(sep, 1)`: split at the first occurrence only. -/
def splitFirstOn : List Char → Char → Option (List Char × List Char)
  | [], _ => none
  | c :: rest, sep =>
    if c = sep then some ([], rest)
    else
      match splitFirstOn rest sep with
      | some (a, b) => some (c :: a, b)
      | none => none

/-! ## Python `dict` model

The agent's device cache and the web backend's device mappings are Python
dicts with string keys.  A dict is modelled as an association list in
insertion order; inserting an existing key overwrites in place, a new key is
appended (CPython 3.7+ semantics). -/

/-- Python `d[k] = v` on a string-valued dict. -/
def dictInsert (d : List (String × String)) (k v : String) : List (String × String) :=
  if d.any (fun p => p.1 == k) then
    d.map (fun p => if p.1 == k then (k, v) else p)
  else
    d ++ [(k, v)]

/-- Python `d.get(k)` / `d[k]` lookup on a string-valued dict. -/
def dictLookup (d : List (String × String)) (k : String) : Option String :=
  (d.find? (fun p => p.1 == k)).map (fun p => p.2)

/-- Python `k in d` on a string-valued dict. -/
def dictContains (d : List (String × String)) (k : String) : Bool :=
  d.any (fun p => p.1 == k)

/-! ## IP-literal validation

Modelled from the Python standard library `ipaddress.ip_address` used by
`_is_valid_ip` / `_is_private_ip` in `openai_network_agent.py` (the stdlib is
not part of the repository source): dotted-quad IPv4 with no leading zeros
and octets ≤ 255, and RFC-4291 IPv6 text forms including `::` compression,
an optional non-empty `%scope` suffix and an embedded IPv4 tail. -/

/-- One IPv4 octet: non-empty, all digits, at most 3 characters, no leading
zero, value at most 255. Returns the numeric value. -/
def octetVal (p : List Char) : Option Nat :=
  if p.isEmpty then none
  else if !(p.all Char.isDigit) then none
  else if p.length > 3 then none
  else if p.length > 1 && p.headD 'x' == '0' then none
  else
    let v := p.foldl (fun a c => a * 10 + (c.toNat - 48)) 0
    if v ≤ 255 then some v else none

/-- Parse a dotted-quad IPv4 literal to its 32-bit value. -/
def ipv4Parse (s : String) : Option Nat :=
  match splitChar s.data '.' with
  | [a, b, c, d] =>
    match octetVal a, octetVal b, octetVal c, octetVal d with
    | some va, some vb, some vc, some vd => some (((va * 256 + vb) * 256 + vc) * 256 + vd)
    | _, _, _, _ => none
  | _ => none

def isHexChar (c : Char) : Bool :=
  c.isDigit || ('a' ≤ c && c ≤ 'f') || ('A' ≤ c && c ≤ 'F')

def hexDigitVal (c : Char) : Nat :=
  if c.isDigit then c.toNat - 48
  else if 'a' ≤ c && c ≤ 'f' then c.toNat - 87
  else c.toNat - 55

/-- One IPv6 hextet: 1 to 4 hex digits. Returns the numeric value. -/
def hextetVal (p : List Char) : Option Nat :=
  if !p.isEmpty && p.length ≤ 4 && p.all isHexChar then
    some (p.foldl (fun a c => a * 16 + hexDigitVal c) 0)
  else none

def allHextets : List (List Char) → Option (List Nat)
  | [] => some []
  | p :: rest =>
    match hextetVal p, allHextets rest with
    | some v, some vs => some (v :: vs)
    | _, _ => none

def hexDigitChar (n : Nat) : Char :=
  if n < 10 then Char.ofNat (48 + n) else Char.ofNat (87 + n)

/-- Lowercase hex rendering of a 16-bit value (Python `'%x' % n`). -/
def natToHexChars (n : Nat) : List Char :=
  let digits := [hexDigitChar (n / 4096 % 16), hexDigitChar (n / 256 % 16),
                 hexDigitChar (n / 16 % 16), hexDigitChar (n % 16)]
  match digits.dropWhile (fun c => c = '0') with
  | [] => ['0']
  | l => l

/-- Indices of empty groups strictly inside the colon-separated part list
(candidate positions of the `::` compression). -/
def emptyInteriorIdxs (parts : List (List Char)) : List Nat :=
  (List.range parts.length).filter fun i =>
    decide (0 < i) && decide (i + 1 < parts.length) && (parts.getD i ['#'] == [])

/-- Core of the IPv6 grammar: given the colon-separated groups (after
embedded-IPv4 expansion), return the 8 hextet values, or `none` if the text
is not a valid IPv6 address. -/
def ipv6GroupsCore (parts : List (List Char)) : Option (List Nat) :=
  let n := parts.length
  match emptyInteriorIdxs parts with
  | [] =>
    if n == 8 then allHextets parts else none
  | [i] =>
    let leadingEmpty := (parts.headD ['#']) == ([] : List Char)
    let trailingEmpty := (parts.getLastD ['#']) == ([] : List Char)
    let hi := if leadingEmpty then i - 1 else i
    let lo0 := n - i - 1
    let lo := if trailingEmpty then lo0 - 1 else lo0
    if leadingEmpty && hi != 0 then none
    else if trailingEmpty && lo != 0 then none
    else if hi + lo > 7 then none
    else
      match allHextets (parts.take hi), allHextets (parts.drop (n - lo)) with
      | some hiVals, some loVals =>
        some (hiVals ++ List.replicate (8 - (hi + lo)) 0 ++ loVals)
      | _, _ => none
  | _ => none

/-- Parse an IPv6 literal (with optional `%scope` and embedded IPv4 tail) to
its 128-bit value. -/
def ipv6Parse (s : String) : Option Nat :=
  let cs := s.data
  let unscoped : Option (List Char) :=
    match splitFirstOn cs '%' with
    | none => some cs
    | some (a, scope) => if !scope.isEmpty && !scope.contains '%' then some a else none
  match unscoped with
  | none => none
  | some addr =>
    let parts0 := splitChar addr ':'
    if parts0.length < 3 then none
    else
      let expanded : Option (List (List Char)) :=
        match parts0.getLast? with
        | none => none
        | some last =>
          if last.contains '.' then
            match ipv4Parse ⟨last⟩ with
            | some v => some (parts0.dropLast ++ [natToHexChars (v / 65536), natToHexChars (v % 65536)])
            | none => none
          else some parts0
      match expanded with
      | none => none
      | some parts =>
        if parts.length > 9 then none
        else
          match ipv6GroupsCore parts with
          | some groups => some (groups.foldl (fun a g => a * 65536 + g) 0)
          | none => none

/-- `NetworkResolutionAgent._is_valid_ip`: the string parses as an IPv4 or
IPv6 address literal. -/
def isValidIP (s : String) : Bool := (ipv4Parse s).isSome || (ipv6Parse s).isSome

/-- Membership of a 32-bit value in an IPv4 network of the given base and
mask length. -/
def inNet4 (ip base pfx : Nat) : Bool :=
  ip / 2 ^ (32 - pfx) == base / 2 ^ (32 - pfx)

/-- The stdlib's IPv4 private-range list (`_private_networks`). -/
def privateNets4 : List (Nat × Nat) :=
  [(0x00000000, 8), (0x0A000000, 8), (0x7F000000, 8), (0xA9FE0000, 16),
   (0xAC100000, 12), (0xC0000000, 29), (0xC00000AA, 31), (0xC0000200, 24),
   (0xC0A80000, 16), (0xC6120000, 15), (0xC6336400, 24), (0xCB007100, 24),
   (0xF0000000, 4), (0xFFFFFFFF, 32)]

/-- Membership of a 128-bit value in an IPv6 network of the given base and
mask length. -/
def inNet6 (ip base pfx : Nat) : Bool :=
  ip / 2 ^ (128 - pfx) == base / 2 ^ (128 - pfx)

/-- The stdlib's IPv6 private-range list. -/
def privateNets6 : List (Nat × Nat) :=
  [(1, 128), (0, 128), (0xFFFF * 2 ^ 32, 96), (0x0100 * 2 ^ 112, 64),
   (0x2001 * 2 ^ 112, 23), ((0x2001 * 65536 + 0xDB8) * 2 ^ 96, 32),
   (0xFC00 * 2 ^ 112, 7), (0xFE80 * 2 ^ 112, 10)]

/-- `NetworkResolutionAgent._is_private_ip`, modelled from the stdlib's
reserved-range membership. -/
def isPrivateIP (s : String) : Bool :=
  match ipv4Parse s with
  | some v => privateNets4.any (fun bp => inNet4 v bp.1 bp.2)
  | none =>
    match ipv6Parse s with
    | some v => privateNets6.any (fun bp => inNet6 v bp.1 bp.2)
    | none => false

/-! ## Data model -/

/-- `RouterDevice` dataclass of `openwrt_query.py`. -/
structure RouterDevice where
  ip_address : String
  hostname : String
  mac_address : String
  lease_time : Option String := none
  interface : Option String := none
deriving Repr, DecidableEq

/-- Python values appearing in the agent's result mappings
(`additional_info` dicts, `execute_function` return dicts). -/
inductive PyValue where
  | str : String → PyValue
  | bool : Bool → PyValue
  | num : Nat → PyValue
  | none : PyValue
  | dict : List (String × PyValue) → PyValue
  | list : List PyValue → PyValue

/-- `ResolutionResult` dataclass of `openai_network_agent.py`; the
`timestamp` is the call's clock reading (`time.time()` modelled as a `Nat`
passed to each call). -/
structure ResolutionResult where
  success : Bool
  query : String
  result : Option String := Option.none
  source : String := "unknown"
  additional_info : Option (List (String × PyValue)) := Option.none
  error : Option String := Option.none
  timestamp : Nat

/-- The cache-related mutable state of `NetworkResolutionAgent`:
`self.cached_devices` and `self.cache_timestamp`. -/
structure CacheState where
  cached_devices : List (String × String)
  cache_timestamp : Nat
deriving Repr, DecidableEq

/-- `self.cache_ttl = 300`. -/
def cacheTtl : Nat := 300

/-- The router manager's `get_connected_devices()` as seen by one call:
either a device list or a raised exception (message). `none` at the use
sites below models `self.router_manager is None`. -/
def RouterBackendResult : Type := Except String (List RouterDevice)

/-! ## Device directory cache (`_refresh_router_cache`) -/

/-- The dict comprehension plus `update` of `_refresh_router_cache`:
lowercased-hostname → ip entries, then ip → hostname entries layered on
top (later writes win, as in a Python dict). -/
def buildCache (devices : List RouterDevice) : List (String × String) :=
  let d1 := devices.foldl (fun d dev => dictInsert d (pyLower dev.hostname) dev.ip_address) []
  devices.foldl (fun d dev => dictInsert d dev.ip_address dev.hostname) d1

/-- `NetworkResolutionAgent._refresh_router_cache`: if the cache is older
than the TTL, ask the backend for devices and replace the cache wholesale,
resetting the timestamp; on a raised exception (or no router manager, or a
fresh cache) leave the state untouched and report whether the cache is
non-empty. Returns (new state, returned bool). -/
def refreshRouterCache (backend : Option RouterBackendResult)
    (s : CacheState) (now : Nat) : CacheState × Bool :=
  if now - s.cache_timestamp > cacheTtl then
    match backend with
    | some (Except.ok devices) =>
      ({ cached_devices := buildCache devices, cache_timestamp := now }, true)
    | some (Except.error _) => (s, decide (0 < s.cached_devices.length))
    | none => (s, decide (0 < s.cached_devices.length))
  else (s, decide (0 < s.cached_devices.length))

/-- Whether a `_refresh_router_cache` call invokes
`router_manager.get_connected_devices()`: only when the cache is stale and
a router manager exists (the backend is then invoked whether it succeeds or
raises). -/
def refreshInvokesBackend (backend : Option RouterBackendResult)
    (s : CacheState) (now : Nat) : Bool :=
  decide (now - s.cache_timestamp > cacheTtl) && backend.isSome

/-! ## Network oracles

The `socket` / `subprocess` calls of the resolution agent, modelled as
oracle functions fixed for the duration of a call. -/

/-- Outcome of `socket.gethostbyname`. -/
inductive DnsOutcome where
  | ok : String → DnsOutcome
  | gaierror : String → DnsOutcome
  | exn : String → DnsOutcome

/-- Outcome of `socket.getaddrinfo` as used for `additional_info`:
a first entry's address family, an empty list, or a raised exception
(which the code swallows, leaving the key absent). -/
inductive AddrInfoOutcome where
  | ok : Nat → AddrInfoOutcome
  | empty : AddrInfoOutcome
  | exn : AddrInfoOutcome

/-- Outcome of `socket.gethostbyaddr`. -/
inductive RevDnsOutcome where
  | ok : String → RevDnsOutcome
  | herror : String → RevDnsOutcome
  | exn : String → RevDnsOutcome

structure NetOracle where
  gethostbyname : String → DnsOutcome
  getaddrinfo : String → AddrInfoOutcome
  gethostbyaddr : String → RevDnsOutcome
  /-- `_ping_host` result. -/
  pingHost : String → Bool
  /-- `_try_ping_hostname_resolution` result. -/
  pingHostname : String → Option String

/-- Insert into a `PyValue`-valued dict (same later-wins semantics). -/
def dictInsertV (d : List (String × PyValue)) (k : String) (v : PyValue) :
    List (String × PyValue) :=
  if d.any (fun p => p.1 == k) then
    d.map (fun p => if p.1 == k then (k, v) else p)
  else
    d ++ [(k, v)]

/-- Lookup in a `PyValue`-valued dict. -/
def dictLookupV (d : List (String × PyValue)) (k : String) : Option PyValue :=
  (d.find? (fun p => p.1 == k)).map (fun p => p.2)

/-! ## Resolution agent (`openai_network_agent.py`) -/

/-- The `additional_info` built in the DNS-success branch of
`resolve_hostname_to_ip`: `{"method": "dns_lookup"}` plus, when
`getaddrinfo` does not raise, an `address_family` entry. -/
def dnsAddInfo (o : NetOracle) (hostname : String) : List (String × PyValue) :=
  let ai : List (String × PyValue) := [("method", PyValue.str "dns_lookup")]
  match o.getaddrinfo hostname with
  | AddrInfoOutcome.ok fam => dictInsertV ai "address_family" (PyValue.num fam)
  | AddrInfoOutcome.empty => dictInsertV ai "address_family" PyValue.none
  | AddrInfoOutcome.exn => ai

/-- The DNS fallthrough of `resolve_hostname_to_ip` (the code after the
router-data block). -/
def dnsResolve (o : NetOracle) (hostname : String) (now : Nat) : ResolutionResult :=
  match o.gethostbyname hostname with
  | DnsOutcome.ok ip =>
    { success := true, query := hostname, result := some ip, source := "dns",
      additional_info := some (dnsAddInfo o hostname), timestamp := now }
  | DnsOutcome.gaierror m =>
    { success := false, query := hostname, source := "dns",
      error := some ("DNS resolution failed: " ++ m), timestamp := now }
  | DnsOutcome.exn m =>
    { success := false, query := hostname, source := "dns",
      error := some ("Unexpected error: " ++ m), timestamp := now }

/-- `NetworkResolutionAgent.resolve_hostname_to_ip`. Parameters: network
oracle, router backend (`none` = no router manager), `self.use_router_data`,
cache state, clock, raw hostname argument, `include_router_data`. -/
def resolve_hostname_to_ip (o : NetOracle) (backend : Option RouterBackendResult)
    (urd : Bool) (s : CacheState) (now : Nat) (hostname0 : String) (ird : Bool) :
    ResolutionResult × CacheState :=
  let hostname := pyLower (pyStrip hostname0)
  if ird && urd then
    let rc := refreshRouterCache backend s now
    if rc.2 then
      match dictLookup rc.1.cached_devices hostname with
      | some ip =>
        if isValidIP ip then
          ({ success := true, query := hostname, result := some ip,
             source := "router_data",
             additional_info := some [("cache_age", PyValue.num (now - rc.1.cache_timestamp))],
             timestamp := now }, rc.1)
        else (dnsResolve o hostname now, rc.1)
      | Option.none => (dnsResolve o hostname now, rc.1)
    else (dnsResolve o hostname now, rc.1)
  else (dnsResolve o hostname now, s)

/-- The reverse-DNS / ping fallthrough of `resolve_ip_to_hostname` (the
code after the router-data block). -/
def revDnsResolve (o : NetOracle) (ip : String) (now : Nat) : ResolutionResult :=
  match o.gethostbyaddr ip with
  | RevDnsOutcome.ok h =>
    { success := true, query := ip, result := some h, source := "reverse_dns",
      additional_info := some [("method", PyValue.str "reverse_dns_lookup")],
      timestamp := now }
  | RevDnsOutcome.herror m =>
    if isPrivateIP ip then
      match o.pingHostname ip with
      | some h =>
        { success := true, query := ip, result := some h, source := "ping_resolution",
          additional_info := some [("method", PyValue.str "ping_hostname")],
          timestamp := now }
      | Option.none =>
        { success := false, query := ip, source := "reverse_dns",
          error := some ("Reverse DNS lookup failed: " ++ m), timestamp := now }
    else
      { success := false, query := ip, source := "reverse_dns",
        error := some ("Reverse DNS lookup failed: " ++ m), timestamp := now }
  | RevDnsOutcome.exn m =>
    { success := false, query := ip, source := "reverse_dns",
      error := some ("Unexpected error: " ++ m), timestamp := now }

/-- `NetworkResolutionAgent.resolve_ip_to_hostname`. -/
def resolve_ip_to_hostname (o : NetOracle) (backend : Option RouterBackendResult)
    (urd : Bool) (s : CacheState) (now : Nat) (ip0 : String) (ird : Bool) :
    ResolutionResult × CacheState :=
  let ip_address := pyStrip ip0
  if !isValidIP ip_address then
    ({ success := false, query := ip_address, source := "validation",
       error := some "Invalid IP address format", timestamp := now }, s)
  else if ird && urd then
    let rc := refreshRouterCache backend s now
    if rc.2 then
      match dictLookup rc.1.cached_devices ip_address with
      | some h =>
        if !isValidIP h then
          ({ success := true, query := ip_address, result := some h,
             source := "router_data",
             additional_info := some [("cache_age", PyValue.num (now - rc.1.cache_timestamp))],
             timestamp := now }, rc.1)
        else (revDnsResolve o ip_address now, rc.1)
      | Option.none => (revDnsResolve o ip_address now, rc.1)
    else (revDnsResolve o ip_address now, rc.1)
  else (revDnsResolve o ip_address now, s)

/-- The loop body of `bulk_resolve` for one query: with auto-detection, an
IP-shaped string goes to `resolve_ip_to_hostname` and anything else to
`resolve_hostname_to_ip`; with auto-detection off, every query is treated
as a hostname. -/
def bulkDispatch (o : NetOracle) (backend : Option RouterBackendResult)
    (urd : Bool) (s : CacheState) (now : Nat) (q : String) (auto : Bool) :
    ResolutionResult × CacheState :=
  if auto then
    if isValidIP q then resolve_ip_to_hostname o backend urd s now q true
    else resolve_hostname_to_ip o backend urd s now q true
  else resolve_hostname_to_ip o backend urd s now q true

/-- `NetworkResolutionAgent.bulk_resolve`: one result per query, in input
order, threading the cache state left to right. -/
def bulk_resolve (o : NetOracle) (backend : Option RouterBackendResult)
    (urd : Bool) (s : CacheState) (now : Nat) :
    List String → Bool → List ResolutionResult × CacheState
  | [], _ => ([], s)
  | q :: rest, auto =>
    let rs₁ := bulkDispatch o backend urd s now q auto
    let more := bulk_resolve o backend urd rs₁.2 now rest auto
    (rs₁.1 :: more.1, more.2)

/-- Python truthiness for the values stored in the info dict of
`get_network_info`. -/
def pyTruthy : PyValue → Bool
  | PyValue.str s => !(s == "")
  | PyValue.bool b => b
  | PyValue.num n => !(n == 0)
  | PyValue.none => false
  | PyValue.dict d => !d.isEmpty
  | PyValue.list l => !l.isEmpty

/-- `NetworkResolutionAgent.get_network_info` (pure model: the wrapping
`try` never observes an exception, so the call reports success). -/
def get_network_info (o : NetOracle) (backend : Option RouterBackendResult)
    (urd : Bool) (s : CacheState) (now : Nat) (target : String) :
    ResolutionResult × CacheState :=
  let is_ip := isValidIP target
  let info0 : List (String × PyValue) :=
    [("input_type", PyValue.str (if is_ip then "ip_address" else "hostname")),
     ("is_private", PyValue.bool false),
     ("is_local", PyValue.bool false),
     ("ping_successful", PyValue.bool false)]
  let step1 :=
    if is_ip then
      let hr := resolve_ip_to_hostname o backend urd s now target true
      let i := dictInsertV info0 "ip_address" (PyValue.str target)
      let i := dictInsertV i "hostname"
        (match (if hr.1.success then hr.1.result else Option.none) with
         | some h => PyValue.str h
         | Option.none => PyValue.none)
      let i := dictInsertV i "is_private" (PyValue.bool (isPrivateIP target))
      (i, hr.2)
    else
      let ir := resolve_hostname_to_ip o backend urd s now target true
      let i := dictInsertV info0 "hostname" (PyValue.str target)
      let ipv := (if ir.1.success then ir.1.result else Option.none)
      let i := dictInsertV i "ip_address"
        (match ipv with
         | some ip => PyValue.str ip
         | Option.none => PyValue.none)
      let i :=
        match ipv with
        | some ip => if !(ip == "") then dictInsertV i "is_private" (PyValue.bool (isPrivateIP ip)) else i
        | Option.none => i
      (i, ir.2)
  let info1 := step1.1
  let s1 := step1.2
  let info2 :=
    match dictLookupV info1 "ip_address" with
    | some (PyValue.str ip) =>
      if !(ip == "") then
        let i := dictInsertV info1 "ping_successful" (PyValue.bool (o.pingHost ip))
        let isPriv := (dictLookupV i "is_private").getD PyValue.none
        let pingOk := (dictLookupV i "ping_successful").getD PyValue.none
        dictInsertV i "is_local" (PyValue.bool (pyTruthy isPriv && pyTruthy pingOk))
      else info1
    | _ => info1
  let step3 :=
    if urd && pyTruthy ((dictLookupV info2 "is_private").getD PyValue.none) then
      let rc := refreshRouterCache backend s1 now
      let found := rc.1.cached_devices.any (fun p => p.1 == target || p.2 == target)
      (dictInsertV info2 "found_in_router" (PyValue.bool found), rc.1)
    else (info2, s1)
  ({ success := true, query := target, source := "network_info",
     additional_info := some step3.1, timestamp := now }, step3.2)

/-! ## `execute_function` (OpenAI function-calling entry point) -/

/-- `dataclasses.asdict` on a `ResolutionResult`, in field order. -/
def asdictResult (r : ResolutionResult) : List (String × PyValue) :=
  [("success", PyValue.bool r.success),
   ("query", PyValue.str r.query),
   ("result", match r.result with | some v => PyValue.str v | Option.none => PyValue.none),
   ("source", PyValue.str r.source),
   ("additional_info", match r.additional_info with
     | some d => PyValue.dict d
     | Option.none => PyValue.none),
   ("error", match r.error with | some e => PyValue.str e | Option.none => PyValue.none),
   ("timestamp", PyValue.num r.timestamp)]

/-- Build a Python dict literal from key/value pairs in evaluation order
(later duplicate keys overwrite earlier ones, as in
`{"success": True, ..., **asdict(result)}`). -/
def pyDictOf (pairs : List (String × PyValue)) : List (String × PyValue) :=
  pairs.foldl (fun d kv => dictInsertV d kv.1 kv.2) []

/-- The keyword arguments a caller may pass to `execute_function`
(defaults as in the Python signatures). -/
structure ExecArgs where
  hostname : String := ""
  ip_address : String := ""
  queries : List String := []
  auto_detect_type : Bool := true
  target : String := ""
  include_router_data : Bool := true

/-- `NetworkResolutionAgent.execute_function`: dispatch on the function
name and wrap the result in a dict whose literal starts with
`"success": True` and is then updated by the expansion of
`asdict(result)`. -/
def execute_function (o : NetOracle) (backend : Option RouterBackendResult)
    (urd : Bool) (s : CacheState) (now : Nat)
    (function_name : String) (args : ExecArgs) :
    List (String × PyValue) × CacheState :=
  if function_name == "resolve_hostname_to_ip" then
    let r := resolve_hostname_to_ip o backend urd s now args.hostname args.include_router_data
    (pyDictOf (("success", PyValue.bool true) :: ("function", PyValue.str function_name)
      :: asdictResult r.1), r.2)
  else if function_name == "resolve_ip_to_hostname" then
    let r := resolve_ip_to_hostname o backend urd s now args.ip_address args.include_router_data
    (pyDictOf (("success", PyValue.bool true) :: ("function", PyValue.str function_name)
      :: asdictResult r.1), r.2)
  else if function_name == "bulk_resolve" then
    let r := bulk_resolve o backend urd s now args.queries args.auto_detect_type
    (pyDictOf [("success", PyValue.bool true), ("function", PyValue.str function_name),
      ("results", PyValue.list (r.1.map (fun x => PyValue.dict (pyDictOf (asdictResult x))))),
      ("count", PyValue.num r.1.length)], r.2)
  else if function_name == "get_network_info" then
    let r := get_network_info o backend urd s now args.target
    (pyDictOf (("success", PyValue.bool true) :: ("function", PyValue.str function_name)
      :: asdictResult r.1), r.2)
  else
    (pyDictOf [("success", PyValue.bool false), ("function", PyValue.str function_name),
      ("error", PyValue.str ("Unknown function: " ++ function_name))], s)

/-! ## SSH backend parser (`OpenWRTQuerySSH._parse_dhcp_leases`) -/

/-- The ARP-table loop of `_parse_dhcp_leases`: skip the header line, and
for every line with at least 4 fields record `arp_map[parts[0]] = parts[3]`. -/
def parseArpMap (arp_data : String) : List (String × String) :=
  ((pySplit (pyStrip arp_data) '\n').drop 1).foldl
    (fun m line =>
      match pyWords line with
      | ip :: _ :: _ :: mac :: _ => dictInsert m ip mac
      | _ => m)
    []

/-- The body of the DHCP-lease loop for one line: skip blank lines and
lines with fewer than 4 whitespace-separated fields; otherwise build a
`RouterDevice` from `<lease_time> <mac> <ip> <hostname>`, replacing a `*`
hostname by `device-<last octet of the ip>`. -/
def parseLeaseLine (line : String) : Option RouterDevice :=
  if pyStrip line == "" then Option.none
  else
    match pyWords line with
    | lease_time :: mac_address :: ip_address :: hn :: _ =>
      let hostname :=
        if hn == "*" then "device-" ++ (pySplit ip_address '.').getLastD ""
        else hn
      some { ip_address := ip_address, hostname := hostname,
             mac_address := mac_address, lease_time := some lease_time }
    | _ => Option.none

/-- `OpenWRTQuerySSH._parse_dhcp_leases`: the ARP map is computed from the
second argument exactly as in the source, but (as in the source) no field
of any produced record reads from it. -/
def parseDhcpLeases (leases_data arp_data : String) : List RouterDevice :=
  let _arp_map := parseArpMap arp_data
  ((pySplit (pyStrip leases_data) '\n').filterMap parseLeaseLine)

/-! ## Web backend (`modules/openwrt_web.py`, `OpenWRTWebQuery`) -/

/-- An HTTP response as seen by `_query_endpoint`. -/
structure WebResponse where
  status_code : Nat
  text : String

/-- The web environment for one `get_dhcp_clients` call: the
`authenticate()` outcome, per-endpoint responses (`none` models a raised
`requests.RequestException`), and the JSON/HTML parsing machinery of
`_parse_response` (`Except.error` models a raised parse exception), which
is stdlib/regex driven and treated as an oracle here. Device mappings are
string-keyed Python dicts. -/
structure WebEnv where
  authOk : Bool
  response : String → Option WebResponse
  parseInner : String → String → Except String (List (List (String × String)))

/-- `OpenWRTWebQuery._parse_response`: run the format-specific parser under
`try`; any parse exception is swallowed, yielding zero devices. -/
def parse_response (env : WebEnv) (content : String) (endpoint : String) :
    List (List (String × String)) :=
  match env.parseInner content endpoint with
  | Except.ok ds => ds
  | Except.error _ => []

/-- `OpenWRTWebQuery._query_endpoint`: GET the endpoint; non-200 responses
and request exceptions yield zero devices; otherwise parse the body. -/
def query_endpoint (env : WebEnv) (endpoint : String) :
    List (List (String × String)) :=
  match env.response endpoint with
  | some resp =>
    if resp.status_code == 200 then parse_response env resp.text endpoint else []
  | Option.none => []

/-- The fixed, ordered endpoint list of `get_dhcp_clients`. -/
def dhcpEndpoints : List String :=
  ["/cgi-bin/luci/admin/status/overview",
   "/cgi-bin/luci/admin/network/dhcp",
   "/cgi-bin/luci/admin/status/processes",
   "/status/dhcp_clients",
   "/api/dhcp/clients"]

/-- The probing loop of `get_dhcp_clients`: try each endpoint in order and
stop at the first that yields one or more devices; if none does, return the
empty list. -/
def probeEndpoints (env : WebEnv) : List String → List (List (String × String))
  | [] => []
  | e :: rest =>
    let ds := query_endpoint env e
    if ds.isEmpty then probeEndpoints env rest else ds

/-- `OpenWRTWebQuery.get_dhcp_clients`: raise a `ConnectionError` if
authentication fails, else probe the endpoint list. -/
def get_dhcp_clients (env : WebEnv) : Except String (List (List (String × String))) :=
  if !env.authOk then
    Except.error "Failed to authenticate to router web interface"
  else
    Except.ok (probeEndpoints env dhcpEndpoints)

/-! ## Field-name normalization (`OpenWRTWebQuery._extract_device_info`) -/

/-- The `key_mappings` table of `_extract_device_info`. -/
def key_mappings : List (String × List String) :=
  [("ip_address", ["ip", "ipaddr", "ip_address", "address"]),
   ("hostname", ["hostname", "name", "device_name", "client_name"]),
   ("mac_address", ["mac", "macaddr", "mac_address", "hwaddr"]),
   ("lease_time", ["lease", "lease_time", "expires", "expiry"])]

/-- The inner candidate-key loop: the first key present in the raw mapping
with a truthy (non-empty) value wins. -/
def firstMatch (data : List (String × String)) : List String → Option String
  | [] => Option.none
  | k :: rest =>
    match dictLookup data k with
    | some v => if !(v == "") then some v else firstMatch data rest
    | Option.none => firstMatch data rest

/-- `OpenWRTWebQuery._extract_device_info`: normalize raw keys onto the
canonical field names via `key_mappings`, then `setdefault` the literal
string "Unknown" for `ip_address`, `hostname` and `mac_address` (and for no
other field). -/
def extract_device_info (data : List (String × String)) : List (String × String) :=
  let device := key_mappings.foldl
    (fun d km =>
      match firstMatch data km.2 with
      | some v => dictInsert d km.1 v
      | Option.none => d)
    []
  let device := if dictContains device "ip_address" then device else dictInsert device "ip_address" "Unknown"
  let device := if dictContains device "hostname" then device else dictInsert device "hostname" "Unknown"
  let device := if dictContains device "mac_address" then device else dictInsert device "mac_address" "Unknown"
  device

/-! ## Concrete fixtures used by witnesses and examples -/

/-- A deterministic network oracle for concrete runs. -/
def demoOracle : NetOracle where
  gethostbyname := fun h => if h == "google.com" then DnsOutcome.ok "142.250.80.14" else DnsOutcome.gaierror "Name or service not known"
  getaddrinfo := fun _ => AddrInfoOutcome.ok 2
  gethostbyaddr := fun ip => if ip == "8.8.8.8" then RevDnsOutcome.ok "dns.google" else RevDnsOutcome.herror "Unknown host"
  pingHost := fun _ => false
  pingHostname := fun _ => Option.none

/-- A cache state holding the single device mapping of the spec's example. -/
def nanoState : CacheState := { cached_devices := [("nano", "192.168.1.159")], cache_timestamp := 1000 }

/-- An empty, never-refreshed cache state. -/
def emptyState : CacheState := { cached_devices := [], cache_timestamp := 0 }

/-- A concrete web environment: authentication succeeds, the first endpoint
serves unparseable HTML, the second serves a body that parses to one
device, the rest are unreachable. -/
def demoWebEnv : WebEnv where
  authOk := true
  response := fun e =>
    if e == "/cgi-bin/luci/admin/status/overview" then some (WebResponse.mk 200 "<html>")
    else if e == "/cgi-bin/luci/admin/network/dhcp" then some (WebResponse.mk 200 "json-devices")
    else Option.none
  parseInner := fun c _ =>
    if c == "json-devices" then Except.ok [[("ip", "10.0.0.2"), ("name", "box")]]
    else if c == "<html>" then Except.error "malformed"
    else Except.ok []

end OllamaAgents

namespace OllamaAgents

/-! ### Sanity examples for the primitives (concrete evaluations) -/

example : pyStrip "  8.8.8.8 " = "8.8.8.8" := by decide
example : pyLower (pyStrip " NANO ") = "nano" := by decide
example : isValidIP "192.168.1.159" = true := by decide
example : isValidIP "8.8.8.8" = true := by decide
example : isValidIP "not-an-ip" = false := by decide
example : isValidIP "google.com" = false := by decide
example : isValidIP "nano" = false := by decide
example : isValidIP "" = false := by decide
example : isValidIP "256.1.1.1" = false := by decide
example : isValidIP "01.2.3.4" = false := by decide
example : isValidIP "::1" = true := by decide
example : isValidIP "fe80::1%eth0" = true := by decide
example : isValidIP "::ffff:192.168.1.1" = true := by decide
example : isValidIP "1:2:3:4:5:6:7:8" = true := by decide
example : isValidIP "1:2:3:4:5:6:7" = false := by decide
example : isValidIP "1::2::3" = false := by decide
example : isValidIP ":1:2:3:4:5:6:7" = false := by decide
example : isValidIP " 8.8.8.8 " = false := by decide
example : isPrivateIP "192.168.1.159" = true := by decide
example : isPrivateIP "8.8.8.8" = false := by decide
example : isPrivateIP "10.0.0.1" = true := by decide
example : pyWords "1699999999 aa:bb:cc:dd:ee:ff 192.168.1.50 *" =
    ["1699999999", "aa:bb:cc:dd:ee:ff", "192.168.1.50", "*"] := by decide
example : pySplit "192.168.1.50" '.' = ["192", "168", "1", "50"] := by decide

/-! ### Behavioural examples on concrete runs -/

example : parseDhcpLeases "1699999999 aa:bb:cc:dd:ee:ff 192.168.1.50 *" "" =
    [{ ip_address := "192.168.1.50", hostname := "device-50",
       mac_address := "aa:bb:cc:dd:ee:ff", lease_time := some "1699999999" }] := by decide

example : parseDhcpLeases "" "" = [] := by decide

example :
    (resolve_hostname_to_ip demoOracle Option.none true nanoState 1100 "NANO" true).1.result
      = some "192.168.1.159" := by decide

example :
    (resolve_hostname_to_ip demoOracle Option.none true nanoState 1100 "NANO" true).1.source
      = "router_data" := by decide

example :
    (resolve_ip_to_hostname demoOracle Option.none true emptyState 0 "not-an-ip" true).1.source
      = "validation" := by decide

example :
    (resolve_ip_to_hostname demoOracle Option.none true emptyState 0 " 8.8.8.8 " true).1.source
      = "reverse_dns" := by decide

example : dictLookup (extract_device_info []) "lease_time" = Option.none := by decide

example : extract_device_info [("ipaddr", "10.0.0.9"), ("name", "box")] =
    [("ip_address", "10.0.0.9"), ("hostname", "box"), ("mac_address", "Unknown")] := by decide

example :
    dictLookupV
      (execute_function demoOracle Option.none true emptyState 7 "resolve_hostname_to_ip"
        { hostname := "no-such-host.lan" }).1
      "success" = some (PyValue.bool false) := rfl

example :
    dictLookupV
      (execute_function demoOracle Option.none true emptyState 7 "bulk_resolve"
        { queries := ["no-such-host.lan"] }).1
      "success" = some (PyValue.bool true) := rfl

example :
    (bulk_resolve demoOracle Option.none true emptyState 3 ["8.8.8.8", "google.com"] true).1.map
      (fun r => r.source) = ["reverse_dns", "dns"] := by decide

example :
    get_dhcp_clients (WebEnv.mk false (fun _ => Option.none) (fun _ _ => Except.ok [])) =
    Except.error "Failed to authenticate to router web interface" := rfl

/-! ### Helper lemmas -/

/-- A fresh cache (age within the TTL) is never refreshed: the state is
returned untouched together with the cache-nonempty flag. -/
theorem refresh_within_ttl (b : Option RouterBackendResult) (s : CacheState) (now : Nat)
    (h : now - s.cache_timestamp ≤ cacheTtl) :
    refreshRouterCache b s now = (s, decide (0 < s.cached_devices.length)) := by
  unfold refreshRouterCache
  rw [if_neg (Nat.not_lt.mpr h)]

/-- A successful dict lookup implies the dict is non-empty. -/
theorem dictLookup_pos (d : List (String × String)) (k v : String)
    (h : dictLookup d k = some v) : 0 < d.length := by
  cases d with
  | nil => simp [dictLookup] at h
  | cons a t => simp

/-- A raised-exception lookup never happens on a fresh-or-error refresh:
the state component of `resolve_hostname_to_ip` is the refreshed state when
the router branch runs, and the input state otherwise. -/
theorem resolve_hostname_state (o : NetOracle) (b : Option RouterBackendResult)
    (urd : Bool) (s : CacheState) (now : Nat) (hn : String) (ird : Bool) :
    (resolve_hostname_to_ip o b urd s now hn ird).2 =
      if ird && urd then (refreshRouterCache b s now).1 else s := by
  unfold resolve_hostname_to_ip
  by_cases h : (ird && urd) = true
  · rw [if_pos h, if_pos h]
    cases hr : (refreshRouterCache b s now).2 with
    | false => simp [hr]
    | true =>
      simp only [hr, if_true]
      cases hl : dictLookup (refreshRouterCache b s now).1.cached_devices (pyLower (pyStrip hn)) with
      | none => simp [hl]
      | some ip =>
        simp only [hl]
        split <;> rfl
  · rw [if_neg h, if_neg h]

/-- If the Python-strip of a character list is empty, every character of the
list is whitespace. -/
theorem all_space_of_strip_empty (cs : List Char)
    (h : ((cs.dropWhile isPySpace).reverse.dropWhile isPySpace).reverse = []) :
    ∀ c ∈ cs, isPySpace c = true := by
  rw [List.reverse_eq_nil_iff] at h
  have h₃ : ∀ c ∈ cs.dropWhile isPySpace, isPySpace c = true := by
    intro c hc
    exact List.dropWhile_eq_nil_iff.mp h c (List.mem_reverse.mpr hc)
  intro c hc
  rw [← List.takeWhile_append_dropWhile (p := isPySpace) (l := cs)] at hc
  rcases List.mem_append.mp hc with h₄ | h₄
  · exact List.mem_takeWhile_imp h₄
  · exact h₃ c h₄

/-- Splitting an all-whitespace character list into words yields nothing. -/
theorem wordsAux_all_space (cs : List Char) (h : ∀ c ∈ cs, isPySpace c = true) :
    wordsAux cs [] = [] := by
  induction cs with
  | nil => rfl
  | cons c rest ih =>
    unfold wordsAux
    rw [h c (List.mem_cons_self _ _)]
    simpa using ih (fun x hx => h x (List.mem_cons_of_mem _ hx))

/-- A line whose Python-strip is empty has no whitespace-separated fields. -/
theorem pyWords_nil_of_strip_empty (line : String) (h : pyStrip line = "") :
    pyWords line = [] := by
  have hd : ((line.data.dropWhile isPySpace).reverse.dropWhile isPySpace).reverse = [] := by
    have h₂ := congrArg String.data h
    simpa [pyStrip] using h₂
  unfold pyWords
  rw [wordsAux_all_space _ (all_space_of_strip_empty _ hd)]
  rfl

/-- The produced record of `parseLeaseLine` on a line with at least four
whitespace-separated fields. -/
theorem parseLeaseLine_eq (line lt mac ip hn : String) (rest : List String)
    (hw : pyWords line = lt :: mac :: ip :: hn :: rest) :
    parseLeaseLine line =
      some { ip_address := ip,
             hostname := if hn == "*" then "device-" ++ (pySplit ip '.').getLastD "" else hn,
             mac_address := mac, lease_time := some lt, interface := Option.none } := by
  unfold parseLeaseLine
  have hne : ¬((pyStrip line == "") = true) := by
    intro hb
    have hnil := pyWords_nil_of_strip_empty line (by simpa using hb)
    rw [hw] at hnil
    cases hnil
  rw [if_neg hne, hw]

/-! ### Claims -/

/-- C1: Cache refresh is idempotent within the time-to-live window: for
every agent state whose cache age does not exceed the TTL (300), a
resolution call leaves the cached device directory identical and does not
invoke the router query backend, so two successive calls against an
unchanged backend leave the cache identical and never invoke the backend a
second time; moreover after a successful refresh, a second call within the
TTL of the new timestamp leaves the refreshed cache untouched and performs
no second backend invocation. -/
theorem cache_refresh_idempotent_within_ttl
    (b : Option RouterBackendResult) (s : CacheState) (now₁ now₂ : Nat)
    (h₁ : now₁ - s.cache_timestamp ≤ cacheTtl)
    (h₂ : now₂ - s.cache_timestamp ≤ cacheTtl) :
    (refreshRouterCache b s now₁).1 = s ∧
    (refreshRouterCache b (refreshRouterCache b s now₁).1 now₂).1 = s ∧
    refreshInvokesBackend b s now₁ = false ∧
    refreshInvokesBackend b (refreshRouterCache b s now₁).1 now₂ = false ∧
    (∀ (o : NetOracle) (hn : String),
      (resolve_hostname_to_ip o b true s now₁ hn true).2 = s) ∧
    (∀ (devices : List RouterDevice) (m₁ m₂ : Nat),
      cacheTtl < m₁ - s.cache_timestamp → m₂ - m₁ ≤ cacheTtl →
      (refreshRouterCache (some (Except.ok devices))
          (refreshRouterCache (some (Except.ok devices)) s m₁).1 m₂).1 =
        (refreshRouterCache (some (Except.ok devices)) s m₁).1 ∧
      refreshInvokesBackend (some (Except.ok devices))
        (refreshRouterCache (some (Except.ok devices)) s m₁).1 m₂ = false) := by
  have e₁ := refresh_within_ttl b s now₁ h₁
  have e₂ := refresh_within_ttl b s now₂ h₂
  refine ⟨by rw [e₁], by rw [e₁, e₂], ?_, ?_, ?_, ?_⟩
  · unfold refreshInvokesBackend
    rw [decide_eq_false (Nat.not_lt.mpr h₁), Bool.false_and]
  · rw [e₁]
    unfold refreshInvokesBackend
    rw [decide_eq_false (Nat.not_lt.mpr h₂), Bool.false_and]
  · intro o hn
    rw [resolve_hostname_state]
    simp only [Bool.and_self, if_true, e₁]
  · intro devices m₁ m₂ hm₁ hm₂
    have estale : refreshRouterCache (some (Except.ok devices)) s m₁ =
        ({ cached_devices := buildCache devices, cache_timestamp := m₁ }, true) := by
      unfold refreshRouterCache
      rw [if_pos hm₁]
    rw [estale]
    constructor
    · rw [refresh_within_ttl _ _ _ hm₂]
    · unfold refreshInvokesBackend
      rw [decide_eq_false (Nat.not_lt.mpr hm₂), Bool.false_and]

/-- Witness for C1 at a concrete fresh state. -/
theorem cache_refresh_idempotent_within_ttl_witness :
    (refreshRouterCache (some (Except.ok ([] : List RouterDevice))) nanoState 1100).1 =
      nanoState ∧
    refreshInvokesBackend (some (Except.ok ([] : List RouterDevice))) nanoState 1100 = false := by
  have h := cache_refresh_idempotent_within_ttl (some (Except.ok [])) nanoState 1100 1200
    (by decide) (by decide)
  exact ⟨h.1, h.2.2.1⟩

/-- C2: Cache refresh is atomic: a successful refresh replaces the whole
cached directory by the snapshot built from the backend's devices and
resets the timestamp; a refresh during which the backend raises leaves the
previous cache contents and timestamp untouched (at any clock reading), so
subsequent lookups still consult the stale — possibly empty — cache, and no
intermediate cache is ever observable. -/
theorem cache_refresh_atomic (devices : List RouterDevice) (e : String)
    (s : CacheState) (now : Nat) (h : cacheTtl < now - s.cache_timestamp) :
    refreshRouterCache (some (Except.ok devices)) s now =
      ({ cached_devices := buildCache devices, cache_timestamp := now }, true) ∧
    (∀ m : Nat, refreshRouterCache (some (Except.error e)) s m =
      (s, decide (0 < s.cached_devices.length))) := by
  constructor
  · unfold refreshRouterCache
    rw [if_pos h]
  · intro m
    unfold refreshRouterCache
    split <;> rfl

/-- Witness for C2 at a concrete stale state. -/
theorem cache_refresh_atomic_witness :
    refreshRouterCache
        (some (Except.ok [RouterDevice.mk "192.168.1.50" "device-50" "aa:bb:cc:dd:ee:ff"
          (some "1699999999") Option.none])) emptyState 301 =
      ({ cached_devices := [("device-50", "192.168.1.50"), ("192.168.1.50", "device-50")],
         cache_timestamp := 301 }, true) ∧
    refreshRouterCache (some (Except.error "boom")) emptyState 301 =
      (emptyState, false) := by
  have h := cache_refresh_atomic
    [RouterDevice.mk "192.168.1.50" "device-50" "aa:bb:cc:dd:ee:ff" (some "1699999999") Option.none]
    "boom" emptyState 301 (by decide)
  exact ⟨h.1, h.2 301⟩

/-- C3: Router-cache lookups are case-normalized and type-guarded in both
directions: `resolve_hostname_to_ip` trims and lowercases its input and
returns the cached entry with source `router_data` exactly when the cached
value is a syntactically valid IP; when the cached value is not IP-shaped
the entry is a miss and the call behaves like one with router data
disabled; `resolve_ip_to_hostname` symmetrically trusts a cached value only
when it is NOT IP-shaped; and on a cache mapping "nano" to "192.168.1.159"
the case-varied query "NANO" succeeds from router data. (The fresh-cache
hypothesis pins the refresh step to a no-op so the consulted directory is
the given one.) -/
theorem router_cache_lookup_type_guarded :
    (∀ (o : NetOracle) (b : Option RouterBackendResult) (s : CacheState) (now : Nat)
       (h ip : String),
      now - s.cache_timestamp ≤ cacheTtl →
      dictLookup s.cached_devices (pyLower (pyStrip h)) = some ip →
      isValidIP ip = true →
      resolve_hostname_to_ip o b true s now h true =
        ({ success := true, query := pyLower (pyStrip h), result := some ip,
           source := "router_data",
           additional_info := some [("cache_age", PyValue.num (now - s.cache_timestamp))],
           timestamp := now }, s)) ∧
    (∀ (o : NetOracle) (b : Option RouterBackendResult) (s : CacheState) (now : Nat)
       (h ip : String),
      now - s.cache_timestamp ≤ cacheTtl →
      dictLookup s.cached_devices (pyLower (pyStrip h)) = some ip →
      isValidIP ip = false →
      resolve_hostname_to_ip o b true s now h true =
        resolve_hostname_to_ip o b true s now h false) ∧
    (∀ (o : NetOracle) (b : Option RouterBackendResult) (s : CacheState) (now : Nat)
       (q hn : String),
      now - s.cache_timestamp ≤ cacheTtl →
      isValidIP (pyStrip q) = true →
      dictLookup s.cached_devices (pyStrip q) = some hn →
      isValidIP hn = false →
      resolve_ip_to_hostname o b true s now q true =
        ({ success := true, query := pyStrip q, result := some hn,
           source := "router_data",
           additional_info := some [("cache_age", PyValue.num (now - s.cache_timestamp))],
           timestamp := now }, s)) ∧
    (∀ (o : NetOracle) (b : Option RouterBackendResult) (s : CacheState) (now : Nat)
       (q hn : String),
      now - s.cache_timestamp ≤ cacheTtl →
      isValidIP (pyStrip q) = true →
      dictLookup s.cached_devices (pyStrip q) = some hn →
      isValidIP hn = true →
      resolve_ip_to_hostname o b true s now q true =
        resolve_ip_to_hostname o b true s now q false) ∧
    ((resolve_hostname_to_ip demoOracle Option.none true nanoState 1100 "NANO" true).1 =
      { success := true, query := "nano", result := some "192.168.1.159",
        source := "router_data",
        additional_info := some [("cache_age", PyValue.num 100)], timestamp := 1100 }) := by
  refine ⟨?_, ?_, ?_, ?_, ?_⟩
  · intro o b s now h ip hle hlk hip
    have hrc := refresh_within_ttl b s now hle
    have hpos := dictLookup_pos _ _ _ hlk
    simp [resolve_hostname_to_ip, hrc, hlk, hip, hpos]
  · intro o b s now h ip hle hlk hip
    have hrc := refresh_within_ttl b s now hle
    have hpos := dictLookup_pos _ _ _ hlk
    simp [resolve_hostname_to_ip, hrc, hlk, hip, hpos]
  · intro o b s now q hn hle hvq hlk hhn
    have hrc := refresh_within_ttl b s now hle
    have hpos := dictLookup_pos _ _ _ hlk
    simp [resolve_ip_to_hostname, hrc, hlk, hvq, hhn, hpos]
  · intro o b s now q hn hle hvq hlk hhn
    have hrc := refresh_within_ttl b s now hle
    have hpos := dictLookup_pos _ _ _ hlk
    simp [resolve_ip_to_hostname, hrc, hlk, hvq, hhn, hpos]
  · rfl

/-- Witness for C3 at the spec's concrete example. -/
theorem router_cache_lookup_type_guarded_witness :
    resolve_hostname_to_ip demoOracle Option.none true nanoState 1100 "NANO" true =
      ({ success := true, query := "nano", result := some "192.168.1.159",
         source := "router_data",
         additional_info := some [("cache_age", PyValue.num 100)], timestamp := 1100 },
       nanoState) :=
  router_cache_lookup_type_guarded.1 demoOracle Option.none nanoState 1100 "NANO"
    "192.168.1.159" (by decide) (by decide) (by decide)

/-- C7 as frozen is falsified by an input that is not a valid IP literal
but whose whitespace-stripped form is: `resolve_ip_to_hostname` strips
before validating, so " 8.8.8.8 " (not itself a syntactically valid IP
literal) does not take the validation short-circuit and reaches reverse
DNS. -/
theorem resolve_ip_validation_counterexample :
    isValidIP " 8.8.8.8 " = false ∧
    (resolve_ip_to_hostname demoOracle Option.none true emptyState 0 " 8.8.8.8 " true).1.source
      = "reverse_dns" := by
  constructor
  · decide
  · decide

/-- C7 (amended): for every input string whose whitespace-stripped form is
not a syntactically valid IP literal, `resolve_ip_to_hostname` returns
success=false with source=validation and the fixed error text, leaves the
cache state untouched, and the outcome is the same for every network oracle
and router backend — i.e. validation short-circuits before any cache
consultation or network activity. -/
theorem resolve_ip_validation_short_circuit (o : NetOracle)
    (b : Option RouterBackendResult) (urd : Bool) (s : CacheState) (now : Nat)
    (q : String) (ird : Bool) (h : isValidIP (pyStrip q) = false) :
    resolve_ip_to_hostname o b urd s now q ird =
      ({ success := false, query := pyStrip q, source := "validation",
         error := some "Invalid IP address format", timestamp := now }, s) := by
  unfold resolve_ip_to_hostname
  simp [h]

/-- Witness for C7's amended theorem at the spec's concrete example. -/
theorem resolve_ip_validation_short_circuit_witness :
    resolve_ip_to_hostname demoOracle Option.none true emptyState 5 "not-an-ip" true =
      ({ success := false, query := "not-an-ip", source := "validation",
         error := some "Invalid IP address format", timestamp := 5 }, emptyState) :=
  resolve_ip_validation_short_circuit demoOracle Option.none true emptyState 5 "not-an-ip"
    true (by decide)

/-- C4: every DHCP lease line with at least 4 whitespace-separated fields
`<lease_time> <mac> <ip> <hostname>` parses to a device record with those
fields, a `*` hostname replaced by `device-<last-octet>`; lines with fewer
than 4 fields (including blank lines) yield no record; and the spec's
concrete line yields hostname "device-50" with MAC "aa:bb:cc:dd:ee:ff". -/
theorem dhcp_lease_line_parsing :
    (∀ (line lt mac ip hn : String) (rest : List String),
      pyWords line = lt :: mac :: ip :: hn :: rest →
      parseLeaseLine line =
        some { ip_address := ip,
               hostname := if hn == "*" then "device-" ++ (pySplit ip '.').getLastD "" else hn,
               mac_address := mac, lease_time := some lt, interface := Option.none }) ∧
    (∀ line : String, (pyWords line).length < 4 → parseLeaseLine line = Option.none) ∧
    (parseDhcpLeases "1699999999 aa:bb:cc:dd:ee:ff 192.168.1.50 *" "" =
      [{ ip_address := "192.168.1.50", hostname := "device-50",
         mac_address := "aa:bb:cc:dd:ee:ff", lease_time := some "1699999999" }]) := by
  refine ⟨parseLeaseLine_eq, ?_, by decide⟩
  intro line hlen
  unfold parseLeaseLine
  by_cases hb : (pyStrip line == "") = true
  · rw [if_pos hb]
  · rw [if_neg hb]
    rcases hw : pyWords line with _ | ⟨a, _ | ⟨c, _ | ⟨d, _ | ⟨e, tl⟩⟩⟩⟩ <;>
      first
        | rfl
        | (rw [hw] at hlen; simp at hlen; omega)

/-- Witness for C4 at the spec's concrete lease line and at a short line. -/
theorem dhcp_lease_line_parsing_witness :
    parseLeaseLine "1699999999 aa:bb:cc:dd:ee:ff 192.168.1.50 *" =
      some { ip_address := "192.168.1.50", hostname := "device-50",
             mac_address := "aa:bb:cc:dd:ee:ff", lease_time := some "1699999999" } ∧
    parseLeaseLine "1699999999 aa:bb:cc:dd:ee:ff" = Option.none := by
  have h := dhcp_lease_line_parsing
  refine ⟨?_, h.2.1 "1699999999 aa:bb:cc:dd:ee:ff" (by decide)⟩
  exact h.1 "1699999999 aa:bb:cc:dd:ee:ff 192.168.1.50 *" "1699999999" "aa:bb:cc:dd:ee:ff"
    "192.168.1.50" "*" [] (by decide)

/-- C5 as frozen claims the ARP table text influences the parsed device
records for some pair of inputs; in the code the ARP map is computed and
then never read, so no such pair exists. -/
theorem dhcp_arp_influence_counterexample :
    ¬ ∃ (leases a₁ a₂ : String), parseDhcpLeases leases a₁ ≠ parseDhcpLeases leases a₂ := by
  rintro ⟨l, a₁, a₂, hne⟩
  exact hne rfl

/-- C5 (amended): the ARP-table argument of `_parse_dhcp_leases` never
influences the produced device records (the ARP map is built exactly as in
the source but no record field reads it); the MAC address of every produced
record comes solely from the second field of its DHCP lease line. -/
theorem dhcp_arp_unused (leases a₁ a₂ : String) :
    parseDhcpLeases leases a₁ = parseDhcpLeases leases a₂ ∧
    (∀ (line lt mac ip hn : String) (rest : List String),
      pyWords line = lt :: mac :: ip :: hn :: rest →
      (parseLeaseLine line).map RouterDevice.mac_address = some mac) := by
  refine ⟨rfl, ?_⟩
  intro line lt mac ip hn rest hw
  rw [parseLeaseLine_eq line lt mac ip hn rest hw]
  rfl

/-- Witness for C5's amended theorem on concrete lease and ARP texts. -/
theorem dhcp_arp_unused_witness :
    parseDhcpLeases "1699999999 aa:bb:cc:dd:ee:ff 192.168.1.50 *"
        "IP address HW type Flags HW address Mask Device\n192.168.1.50 0x1 0x2 11:22:33:44:55:66 * br-lan" =
      parseDhcpLeases "1699999999 aa:bb:cc:dd:ee:ff 192.168.1.50 *"
        "IP address HW type Flags HW address Mask Device\n192.168.1.50 0x1 0x2 77:88:99:aa:bb:cc * br-lan" ∧
    (parseLeaseLine "1699999999 aa:bb:cc:dd:ee:ff 192.168.1.50 *").map RouterDevice.mac_address =
      some "aa:bb:cc:dd:ee:ff" := by
  have h := dhcp_arp_unused "1699999999 aa:bb:cc:dd:ee:ff 192.168.1.50 *"
    "IP address HW type Flags HW address Mask Device\n192.168.1.50 0x1 0x2 11:22:33:44:55:66 * br-lan"
    "IP address HW type Flags HW address Mask Device\n192.168.1.50 0x1 0x2 77:88:99:aa:bb:cc * br-lan"
  exact ⟨h.1, h.2 "1699999999 aa:bb:cc:dd:ee:ff 192.168.1.50 *" "1699999999"
    "aa:bb:cc:dd:ee:ff" "192.168.1.50" "*" [] (by decide)⟩

/-- C6: the web backend raises a connection error on authentication failure
before any endpoint is consulted (for every response/parse behaviour);
with authentication it probes the five fixed endpoints in order; a parse
exception or a request exception yields zero devices for that endpoint;
when every endpoint yields zero devices the result is empty; and the probe
stops at the first endpoint whose response parses to one or more devices,
provided all earlier endpoints yielded zero. -/
theorem web_backend_probe_order :
    (∀ (r : String → Option WebResponse)
       (p : String → String → Except String (List (List (String × String)))),
      get_dhcp_clients (WebEnv.mk false r p) =
        Except.error "Failed to authenticate to router web interface") ∧
    (∀ env : WebEnv, env.authOk = true →
      get_dhcp_clients env = Except.ok (probeEndpoints env dhcpEndpoints)) ∧
    (∀ (env : WebEnv) (c e m : String), env.parseInner c e = Except.error m →
      parse_response env c e = []) ∧
    (∀ (env : WebEnv) (e : String), env.response e = Option.none →
      query_endpoint env e = []) ∧
    (∀ (env : WebEnv) (es : List String),
      (∀ e ∈ es, query_endpoint env e = []) → probeEndpoints env es = []) ∧
    (∀ (env : WebEnv) (es : List String) (i : Nat) (q : String),
      (∀ e ∈ es.take i, query_endpoint env e = []) →
      es.get? i = some q →
      query_endpoint env q ≠ [] →
      probeEndpoints env es = query_endpoint env q) := by
  refine ⟨fun r p => rfl, ?_, ?_, ?_, ?_, ?_⟩
  · intro env h
    unfold get_dhcp_clients
    rw [h]
    rfl
  · intro env c e m hp
    unfold parse_response
    rw [hp]
  · intro env e hr
    unfold query_endpoint
    rw [hr]
  · intro env es h
    induction es with
    | nil => rfl
    | cons e₀ rest ih =>
      unfold probeEndpoints
      rw [h e₀ (List.mem_cons_self _ _)]
      exact ih (fun e he => h e (List.mem_cons_of_mem _ he))
  · intro env es i q htake hq hne
    induction es generalizing i with
    | nil => cases hq
    | cons e₀ rest ih =>
      cases i with
      | zero =>
        have hq₀ : e₀ = q := by simpa using hq
        subst hq₀
        unfold probeEndpoints
        rcases hds : query_endpoint env e₀ with _ | ⟨x, xs⟩
        · exact absurd hds hne
        · simp
      | succ j =>
        have h₀ : query_endpoint env e₀ = [] := by
          exact htake e₀ (by simp)
        unfold probeEndpoints
        rw [h₀]
        simp only [List.isEmpty_nil, if_true]
        exact ih j (fun e he => htake e (by simpa using List.mem_cons_of_mem e₀ he)) (by simpa using hq)

/-- Witness for C6 at a concrete web environment where the first endpoint's
body fails to parse and the second yields one device. -/
theorem web_backend_probe_order_witness :
    get_dhcp_clients demoWebEnv = Except.ok (probeEndpoints demoWebEnv dhcpEndpoints) ∧
    probeEndpoints demoWebEnv dhcpEndpoints = [[("ip", "10.0.0.2"), ("name", "box")]] ∧
    get_dhcp_clients (WebEnv.mk false demoWebEnv.response demoWebEnv.parseInner) =
      Except.error "Failed to authenticate to router web interface" := by
  have h := web_backend_probe_order
  refine ⟨h.2.1 demoWebEnv rfl, ?_, h.1 demoWebEnv.response demoWebEnv.parseInner⟩
  have hstop := h.2.2.2.2.2 demoWebEnv dhcpEndpoints 1 "/cgi-bin/luci/admin/network/dhcp"
    (by decide) (by decide) (by decide)
  rw [hstop]
  decide

/-- C8: `bulk_resolve` returns exactly one result per query in input order
(no deduplication — positions are preserved even for repeated queries): the
i-th result is the dispatch of the i-th query from the cache state threaded
through the earlier queries, where with auto-detection a syntactically
valid IP literal goes to `resolve_ip_to_hostname` and anything else to
`resolve_hostname_to_ip`, and without auto-detection everything goes to
`resolve_hostname_to_ip` (`bulkDispatch` is exactly that case split). -/
theorem bulk_resolve_order_and_dispatch (o : NetOracle)
    (b : Option RouterBackendResult) (urd : Bool) (s : CacheState) (now : Nat)
    (qs : List String) (auto : Bool) :
    (bulk_resolve o b urd s now qs auto).1.length = qs.length ∧
    (∀ (i : Nat) (q : String), qs.get? i = some q →
      (bulk_resolve o b urd s now qs auto).1.get? i =
        some (bulkDispatch o b urd
          (bulk_resolve o b urd s now (qs.take i) auto).2 now q auto).1) := by
  induction qs generalizing s with
  | nil =>
    refine ⟨rfl, ?_⟩
    intro i q hq
    cases hq
  | cons q₀ rest ih =>
    constructor
    · show ((bulkDispatch o b urd s now q₀ auto).1 ::
        (bulk_resolve o b urd (bulkDispatch o b urd s now q₀ auto).2 now rest auto).1).length
          = rest.length + 1
      rw [List.length_cons, (ih (bulkDispatch o b urd s now q₀ auto).2).1]
    · intro i q hq
      cases i with
      | zero =>
        have hq₀ : q₀ = q := by simpa using hq
        subst hq₀
        rfl
      | succ j =>
        have hqr : rest.get? j = some q := by simpa using hq
        show ((bulkDispatch o b urd s now q₀ auto).1 ::
          (bulk_resolve o b urd (bulkDispatch o b urd s now q₀ auto).2 now rest auto).1).get? (j + 1)
            = _
        rw [List.get?_cons_succ]
        rw [(ih (bulkDispatch o b urd s now q₀ auto).2).2 j q hqr]
        rfl

/-- Witness for C8 at the spec's concrete bulk query. -/
theorem bulk_resolve_order_and_dispatch_witness :
    (bulk_resolve demoOracle Option.none true emptyState 3 ["8.8.8.8", "google.com"] true).1.length
      = 2 ∧
    (bulk_resolve demoOracle Option.none true emptyState 3 ["8.8.8.8", "google.com"] true).1.get? 0
      = some (bulkDispatch demoOracle Option.none true
          (bulk_resolve demoOracle Option.none true emptyState 3
            (["8.8.8.8", "google.com"].take 0) true).2 3 "8.8.8.8" true).1 ∧
    (bulk_resolve demoOracle Option.none true emptyState 3 ["8.8.8.8", "google.com"] true).1.get? 1
      = some (bulkDispatch demoOracle Option.none true
          (bulk_resolve demoOracle Option.none true emptyState 3
            (["8.8.8.8", "google.com"].take 1) true).2 3 "google.com" true).1 := by
  have h := bulk_resolve_order_and_dispatch demoOracle Option.none true emptyState 3
    ["8.8.8.8", "google.com"] true
  exact ⟨h.1, h.2 0 "8.8.8.8" (by decide), h.2 1 "google.com" (by decide)⟩

/-- C9 as frozen claims every canonical field with no matching raw key
defaults to "Unknown"; on the empty raw mapping the three address/name
fields do default to "Unknown" but `lease_time` is simply absent, not
"Unknown". -/
theorem extract_device_info_lease_counterexample :
    dictLookup (extract_device_info []) "lease_time" = Option.none ∧
    extract_device_info [] =
      [("ip_address", "Unknown"), ("hostname", "Unknown"), ("mac_address", "Unknown")] := by
  constructor
  · decide
  · decide

/-- C9 (amended): for every raw device mapping, each canonical field is
filled from its fixed priority list of candidate raw keys with the first
present, non-empty key winning; `ip_address`, `hostname` and `mac_address`
default to the literal string "Unknown" when no candidate matches, while
`lease_time` is left absent in that case. -/
theorem extract_device_info_normalization (data : List (String × String)) :
    dictLookup (extract_device_info data) "ip_address" =
      some ((firstMatch data ["ip", "ipaddr", "ip_address", "address"]).getD "Unknown") ∧
    dictLookup (extract_device_info data) "hostname" =
      some ((firstMatch data ["hostname", "name", "device_name", "client_name"]).getD "Unknown") ∧
    dictLookup (extract_device_info data) "mac_address" =
      some ((firstMatch data ["mac", "macaddr", "mac_address", "hwaddr"]).getD "Unknown") ∧
    dictLookup (extract_device_info data) "lease_time" =
      firstMatch data ["lease", "lease_time", "expires", "expiry"] := by
  rcases h1 : firstMatch data ["ip", "ipaddr", "ip_address", "address"] with _ | v1 <;>
    rcases h2 : firstMatch data ["hostname", "name", "device_name", "client_name"] with _ | v2 <;>
      rcases h3 : firstMatch data ["mac", "macaddr", "mac_address", "hwaddr"] with _ | v3 <;>
        rcases h4 : firstMatch data ["lease", "lease_time", "expires", "expiry"] with _ | v4 <;>
          simp [extract_device_info, key_mappings, h1, h2, h3, h4,
            dictInsert, dictLookup, dictContains]

set_option maxHeartbeats 1600000 in
/-- C10: for the three single-result functions, the "success" key of the
mapping returned by `execute_function` equals the inner result's success
flag — the literal `True` written first is overwritten by the expansion of
`asdict(result)` — while the `bulk_resolve` branch always reports top-level
success `True` regardless of the individual results. -/
theorem execute_function_success_key (o : NetOracle) (b : Option RouterBackendResult)
    (urd : Bool) (s : CacheState) (now : Nat) (args : ExecArgs) :
    dictLookupV (execute_function o b urd s now "resolve_hostname_to_ip" args).1 "success" =
      some (PyValue.bool
        (resolve_hostname_to_ip o b urd s now args.hostname args.include_router_data).1.success) ∧
    dictLookupV (execute_function o b urd s now "resolve_ip_to_hostname" args).1 "success" =
      some (PyValue.bool
        (resolve_ip_to_hostname o b urd s now args.ip_address args.include_router_data).1.success) ∧
    dictLookupV (execute_function o b urd s now "get_network_info" args).1 "success" =
      some (PyValue.bool (get_network_info o b urd s now args.target).1.success) ∧
    dictLookupV (execute_function o b urd s now "bulk_resolve" args).1 "success" =
      some (PyValue.bool true) :=
  ⟨rfl, rfl, rfl, rfl⟩

end OllamaAgents
